import Mathlib

/-!
Shallow embedding of the `avaread` reader (`src/avaread/reader.py` and
`src/avaread/AvaTypes.py`): the Avantes AvaSoft file readers for the
regular `AVS` format and the Store-to-RAM `STR` format.

Machine integers coming out of the ctypes structures (`c_uint16`,
`c_uint32`, ...) are decoded by Python into non-negative `int`s, so they
are modelled as `Nat`; Python `int` arithmetic that can go negative is
modelled on `Int`.  Sample values (the float32/float64 payloads) are
modelled as `Int`: every claim about them concerns which elements are
combined or sliced, and on the small integer sample values used in the
concrete evaluations IEEE arithmetic is exact.
-/

namespace Avaread

/-! ### Timestamp decoding (`reader.py`, `_extract_datetime`)

`_extract_datetime` unpacks the bit-packed 32-bit timestamp and then
builds a `datetime`, which validates its arguments: `datetime` requires
`MINYEAR = 1 ≤ year ≤ MAXYEAR = 9999`, `1 ≤ month ≤ 12`,
`1 ≤ day ≤` the number of days of that month (Gregorian, proleptic),
`0 ≤ hour ≤ 23`, `0 ≤ minute ≤ 59`, and raises `ValueError` otherwise.
The model returns `none` exactly when the `datetime` constructor raises. -/

/-- Gregorian leap-year rule used by Python's `datetime` module. -/
def isLeapYear (y : Nat) : Bool :=
  y % 4 == 0 && (y % 100 != 0 || y % 400 == 0)

/-- Number of days in a month, as validated by `datetime`. -/
def daysInMonth (y mo : Nat) : Nat :=
  if mo = 2 then (if isLeapYear y then 29 else 28)
  else if mo = 4 ∨ mo = 6 ∨ mo = 9 ∨ mo = 11 then 30
  else 31

/-- Source `reader.py`, `_extract_datetime`: bit-unpack the timestamp
(`year = ts >> 20; month = (ts >> 16) % 16; day = (ts >> 11) % 32;
hour = (ts >> 6) % 32; minute = ts % 64`) and construct
`datetime(year=year, month=month, day=day, hour=hour, minute=minute)`.
`none` models the `ValueError` the `datetime` constructor raises on an
impossible calendar date. -/
def extract_datetime (ts : Nat) : Option (Nat × Nat × Nat × Nat × Nat) :=
  let year := ts >>> 20
  let month := (ts >>> 16) % 16
  let day := (ts >>> 11) % 32
  let hour := (ts >>> 6) % 32
  let minute := ts % 64
  if 1 ≤ year ∧ year ≤ 9999 ∧ 1 ≤ month ∧ month ≤ 12 ∧
      1 ≤ day ∧ day ≤ daysInMonth year month ∧ hour ≤ 23 ∧ minute ≤ 59
  then some (year, month, day, hour, minute)
  else none

/-- The documented bit layout of the packed timestamp: minute in bits
0–5, hour in bits 6–10, day in bits 11–15, month in bits 16–19, year in
bits ≥ 20 (`2^6 = 64`, `2^11 = 2048`, `2^16 = 65536`, `2^20 = 1048576`). -/
def packTimestamp (y mo d h mi : Nat) : Nat :=
  y * 1048576 + mo * 65536 + d * 2048 + h * 64 + mi

/-! ### Active-pixel counts (`reader.py`, `AVSChannel.__len__`,
`AVSChannel.pixels`, `STRFile.pixels`)

`StartPixel` and `StopPixel` are `c_uint16` fields of `MeasConfigStruct`,
hence `Nat` values below 2^16; Python subtraction is on `Int`. -/

/-- Source `AVSChannel.__len__`: `self.Measurement.StopPixel - self.Measurement.StartPixel + 1`. -/
def AVSChannel_len (startPixel stopPixel : Nat) : Int :=
  (stopPixel : Int) - (startPixel : Int) + 1

/-- Source `AVSChannel.pixels`: `return len(self)`. -/
def AVSChannel_pixels (startPixel stopPixel : Nat) : Int :=
  AVSChannel_len startPixel stopPixel

/-- Source `STRFile.pixels`: `self.Measurement.StopPixel - self.Measurement.StartPixel`. -/
def STRFile_pixels (startPixel stopPixel : Nat) : Int :=
  (stopPixel : Int) - (startPixel : Int)

/-- Python slicing `l[a:b]` for `0 ≤ a, b` (the only shapes the reader
uses): elements at positions `a, a+1, …, b-1`, clamped to the list. -/
def pySlice (l : List α) (a b : Nat) : List α :=
  (l.take b).drop a

/-- Source `STRFile.wavelength`:
`self._wavelength[self.Measurement.StartPixel : self.Measurement.StopPixel]`. -/
def STRFile_wavelength (wavelengthFull : List Int) (startPixel stopPixel : Nat) : List Int :=
  pySlice wavelengthFull startPixel stopPixel

/-- Source `AVSChannel.from_buffer` payload reshaping: `np.fromfile(buffer,
dtype=np.float32, count=4 * num_pixels).reshape(4, -1).T` over a buffer
holding the `4 * num_pixels` samples `flat`: row `i` of the resulting
`(num_pixels, 4)` array is
`(wavelength[i], scope[i], dark[i], ref[i]) = (flat[i], flat[P+i], flat[2P+i], flat[3P+i])`. -/
def avsFromBufferData (flat : List Int) (numPixels : Nat) : List (List Int) :=
  (List.range numPixels).map fun i =>
    [flat.getD i 0, flat.getD (numPixels + i) 0,
     flat.getD (2 * numPixels + i) 0, flat.getD (3 * numPixels + i) 0]

/-! ### numpy broadcasting and the STR signals (`reader.py`, `STRFile`)

`STRFile.data` has shape `(pixels, frames)` and is modelled as a
rectangular list of `pixels` rows, each of length `frames`.
`STRFile._dark` / `_wavelength` / `_ref` are 1-D arrays of length
`pixels` (full sensor width). -/

/-- numpy subtraction of a 1-D array `b` of shape `(Q,)` from a 2-D
array `a` of shape `(P, F)`.  Broadcasting aligns trailing axes: `b` is
treated as shape `(1, Q)`; the operation succeeds iff `F = Q`, `Q = 1`
or `F = 1`, and otherwise raises
`ValueError: operands could not be broadcast together` (modelled as
`none`).  When `F = 1 ≠ Q` the result has shape `(P, Q)`:
`a[i][0] - b[j]`. -/
def npSub2D1D (a : List (List Int)) (b : List Int) : Option (List (List Int)) :=
  let F := (a.headD []).length
  if F = b.length then
    some (a.map fun row => row.zipWith (fun x y => x - y) b)
  else if b.length = 1 then
    some (a.map fun row => row.map (fun x => x - b.headD 0))
  else if F = 1 then
    some (a.map fun row => b.map (fun y => row.headD 0 - y))
  else none

/-- Source `STRFile.dark`:
`self._dark[self.Measurement.StartPixel : self.Measurement.StopPixel]`. -/
def STRFile_dark (darkFull : List Int) (startPixel stopPixel : Nat) : List Int :=
  pySlice darkFull startPixel stopPixel

/-- Source `STRFile.scope`:
`self.data[self.Measurement.StartPixel : self.Measurement.StopPixel, :]`. -/
def STRFile_scope (data : List (List Int)) (startPixel stopPixel : Nat) : List (List Int) :=
  pySlice data startPixel stopPixel

/-- Source `STRFile.signal`:
`self.data[StartPixel:StopPixel, :] - self.dark`, a `(P, F)` minus
`(P,)` numpy subtraction — which broadcasts `self.dark` along the wrong
(frame) axis, or fails, rather than subtracting the dark value of pixel
`i` from row `i`. -/
def STRFile_signal (data : List (List Int)) (darkFull : List Int)
    (startPixel stopPixel : Nat) : Option (List (List Int)) :=
  npSub2D1D (STRFile_scope data startPixel stopPixel)
    (STRFile_dark darkFull startPixel stopPixel)

/-- Source `STRFile.__getitem__`:
`self.data[StartPixel:StopPixel, index] - self.dark` — a `(P,)` column
minus the `(P,)` dark slice, elementwise. -/
def STRFile_getitem (data : List (List Int)) (darkFull : List Int)
    (startPixel stopPixel : Nat) (index : Nat) : List Int :=
  ((pySlice data startPixel stopPixel).map fun row => row.getD index 0).zipWith
    (fun x y => x - y) (STRFile_dark darkFull startPixel stopPixel)

/-- The dark-corrected per-frame signal the spec describes
(`signal == scope − dark` elementwise for every frame): subtract the
dark value of pixel `i` from every sample of row `i`. -/
def strSignalElementwise (data : List (List Int)) (darkFull : List Int)
    (startPixel stopPixel : Nat) : List (List Int) :=
  (STRFile_scope data startPixel stopPixel).zipWith
    (fun row dk => row.map (fun x => x - dk))
    (STRFile_dark darkFull startPixel stopPixel)

/-! ### AVS channel signals (`reader.py`, `AVSChannel`) -/

/-- Source `AVSChannel.scope`: `self.data[:, 1]`. -/
def AVSChannel_scope (data : List (List Int)) : List Int :=
  data.map fun row => row.getD 1 0

/-- Source `AVSChannel.dark`: `self.data[:, 2]`. -/
def AVSChannel_dark (data : List (List Int)) : List Int :=
  data.map fun row => row.getD 2 0

/-- Source `AVSChannel.signal`: `self.scope - self.dark`, two `(P,)` arrays
subtracted elementwise. -/
def AVSChannel_signal (data : List (List Int)) : List Int :=
  (AVSChannel_scope data).zipWith (fun x y => x - y) (AVSChannel_dark data)

/-! ### The STR frame-reading loop (`reader.py`, `STRFile.__init__`)

```
for i in range(self.preamble.frames):
    self.delay[i] = struct.unpack("l", fo.read(sizeof(c_long)))[0] / 100
    self.data[:, i] = np.fromfile(fo, dtype=np.double, count=pixels)
```

Each iteration consumes `sizeof(c_long)` bytes for the delay and
`pixels * 8` bytes (`pixels` little-endian float64 samples) for the
payload.  `ctypes.sizeof(c_long)` is the platform's native `long`:
4 bytes on Windows and on 32-bit platforms, 8 bytes on LP64 platforms
(64-bit Linux/macOS); the native `"l"` format of `struct.unpack`
likewise follows the platform.  The loop is modelled as the stream left
after reading `frames` frame records. -/

/-- Value of `sizeof(c_long)` on an LP64 platform (64-bit Linux/macOS). -/
def sizeof_c_long_lp64 : Nat := 8

/-- Value of `sizeof(c_long)` on Windows and on 32-bit platforms. -/
def sizeof_c_long_win : Nat := 4

/-- The byte stream remaining after the STR frame loop has read
`frames` frame records, with `sizeofLong` bytes of delay and
`pixels * 8` bytes of payload consumed per frame. -/
def strReadFramesRest (stream : List Nat) (pixels sizeofLong : Nat) : Nat → List Nat
  | 0 => stream
  | n + 1 =>
      strReadFramesRest ((stream.drop sizeofLong).drop (pixels * 8)) pixels sizeofLong n

/-! ### Python exception classes

The class hierarchy of the exceptions the reader can raise.
`reader.py` line 19 declares `class AvaReadException(BaseException)` —
its base is `BaseException`, not `Exception`.  The remaining entries
follow CPython's built-in hierarchy. -/

inductive PyExcClass where
  | baseException
  | exceptionCls
  | osError
  | fileNotFoundError
  | lookupError
  | keyError
  | indexError
  | attributeError
  | valueError
  | unicodeDecodeError
  | avaReadException
  deriving DecidableEq, Repr

/-- The inheritance chain of each class, itself first,
up to `BaseException` (the method-resolution order restricted to the
classes modelled here). -/
def PyExcClass.ancestors : PyExcClass → List PyExcClass
  | .baseException => [.baseException]
  | .exceptionCls => [.exceptionCls, .baseException]
  | .osError => [.osError, .exceptionCls, .baseException]
  | .fileNotFoundError => [.fileNotFoundError, .osError, .exceptionCls, .baseException]
  | .lookupError => [.lookupError, .exceptionCls, .baseException]
  | .keyError => [.keyError, .lookupError, .exceptionCls, .baseException]
  | .indexError => [.indexError, .lookupError, .exceptionCls, .baseException]
  | .attributeError => [.attributeError, .exceptionCls, .baseException]
  | .valueError => [.valueError, .exceptionCls, .baseException]
  | .unicodeDecodeError => [.unicodeDecodeError, .valueError, .exceptionCls, .baseException]
  | .avaReadException => [.avaReadException, .baseException]

/-- Semantics of `except handler:`: it catches a raised instance of class `exc` iff
`handler` is `exc` itself or one of its base classes. -/
def pyCatches (handler exc : PyExcClass) : Bool :=
  handler ∈ exc.ancestors

/-! ### UTF-8 decoding (`bytes.decode`)

`prelude[:3].decode()` uses strict UTF-8 decoding: overlong encodings,
surrogates and code points above U+10FFFF are rejected
(`UnicodeDecodeError`).  Decoded strings are modelled as lists of code
points. -/

/-- A UTF-8 continuation byte: `0x80 ≤ b ≤ 0xBF`. -/
def isCont (b : Nat) : Bool := 0x80 ≤ b && b ≤ 0xBF

/-- Strict UTF-8 decoding of a byte list into code points;
`none` models `UnicodeDecodeError`. -/
def utf8Decode : List Nat → Option (List Nat)
  | [] => some []
  | b :: rest =>
    if b ≤ 0x7F then
      (utf8Decode rest).map (b :: ·)
    else if 0xC2 ≤ b && b ≤ 0xDF then
      match rest with
      | c :: r =>
        if isCont c then
          (utf8Decode r).map (((b - 0xC0) * 0x40 + (c - 0x80)) :: ·)
        else none
      | [] => none
    else if 0xE0 ≤ b && b ≤ 0xEF then
      match rest with
      | c1 :: c2 :: r =>
        -- E0 forbids overlongs (A0–BF), ED forbids surrogates (80–9F)
        if (if b = 0xE0 then 0xA0 ≤ c1 && c1 ≤ 0xBF
            else if b = 0xED then 0x80 ≤ c1 && c1 ≤ 0x9F
            else isCont c1) && isCont c2 then
          (utf8Decode r).map
            ((((b - 0xE0) * 0x40 + (c1 - 0x80)) * 0x40 + (c2 - 0x80)) :: ·)
        else none
      | _ => none
    else if 0xF0 ≤ b && b ≤ 0xF4 then
      match rest with
      | c1 :: c2 :: c3 :: r =>
        -- F0 forbids overlongs (90–BF), F4 caps at U+10FFFF (80–8F)
        if (if b = 0xF0 then 0x90 ≤ c1 && c1 ≤ 0xBF
            else if b = 0xF4 then 0x80 ≤ c1 && c1 ≤ 0x8F
            else isCont c1) && isCont c2 && isCont c3 then
          (utf8Decode r).map
            (((((b - 0xF0) * 0x40 + (c1 - 0x80)) * 0x40 + (c2 - 0x80)) * 0x40
                + (c3 - 0x80)) :: ·)
        else none
      | _ => none
    else none

/-- Fuel-driven worker for [`utf8DecodeIgnore`]: each step consumes at
least one byte, so fuel equal to the byte count suffices. -/
def utf8DecodeIgnoreAux : Nat → List Nat → List Nat
  | 0, _ => []
  | _ + 1, [] => []
  | fuel + 1, b :: rest =>
    if b ≤ 0x7F then b :: utf8DecodeIgnoreAux fuel rest
    else if 0xC2 ≤ b && b ≤ 0xDF then
      match rest with
      | c :: r =>
        if isCont c then
          ((b - 0xC0) * 0x40 + (c - 0x80)) :: utf8DecodeIgnoreAux fuel r
        else utf8DecodeIgnoreAux fuel rest
      | [] => []
    else if 0xE0 ≤ b && b ≤ 0xEF then
      match rest with
      | c1 :: c2 :: r =>
        if (if b = 0xE0 then 0xA0 ≤ c1 && c1 ≤ 0xBF
            else if b = 0xED then 0x80 ≤ c1 && c1 ≤ 0x9F
            else isCont c1) && isCont c2 then
          (((b - 0xE0) * 0x40 + (c1 - 0x80)) * 0x40 + (c2 - 0x80)) ::
            utf8DecodeIgnoreAux fuel r
        else utf8DecodeIgnoreAux fuel rest
      | _ => utf8DecodeIgnoreAux fuel rest
    else if 0xF0 ≤ b && b ≤ 0xF4 then
      match rest with
      | c1 :: c2 :: c3 :: r =>
        if (if b = 0xF0 then 0x90 ≤ c1 && c1 ≤ 0xBF
            else if b = 0xF4 then 0x80 ≤ c1 && c1 ≤ 0x8F
            else isCont c1) && isCont c2 && isCont c3 then
          ((((b - 0xF0) * 0x40 + (c1 - 0x80)) * 0x40 + (c2 - 0x80)) * 0x40
              + (c3 - 0x80)) :: utf8DecodeIgnoreAux fuel r
        else utf8DecodeIgnoreAux fuel rest
      | _ => utf8DecodeIgnoreAux fuel rest
    else utf8DecodeIgnoreAux fuel rest

/-- UTF-8 decoding with `errors="ignore"` (used by the field mapper for
`c_char` arrays): an undecodable byte is dropped and decoding resumes
at the next byte. -/
def utf8DecodeIgnore (bs : List Nat) : List Nat :=
  utf8DecodeIgnoreAux bs.length bs

/-! ### The field mapper (`reader.py`, `StructMapping`)

A `MappableStructure` is a ctypes `Structure` with `_pack_ = 1`, a
`_fields_` list of `(name, ctype)` pairs and a `_map` dict sending some
field names to `IntEnum` classes.  A raw field value is a `c_char`
array, another numeric array, a nested structure, or a scalar;
`StructMapping.__getattr__` maps it on every access. -/

/-- A raw ctypes field value as stored in a `MappableStructure`. -/
inductive RawVal where
  /-- a `c_char * n` array (raw bytes) -/
  | charArr (bs : List Nat)
  /-- a numeric ctypes array (e.g. `c_double * 5`, `c_byte * 2`) -/
  | numArr (xs : List Int)
  /-- a nested `MappableStructure` with its own fields -/
  | structVal (fields : List (String × RawVal))
  /-- a scalar ctypes value (`c_ubyte`, `c_uint16`, `c_uint32`, ...) -/
  | scalar (v : Int)

/-- A field value after `StructMapping.__getattr__` has mapped it. -/
inductive MappedVal where
  /-- a decoded string (from `value.decode("utf-8", errors="ignore")`) -/
  | str (codepoints : List Nat)
  /-- a numpy array (from `np.ctypeslib.as_array`) -/
  | arr (xs : List Int)
  /-- an enum member (`self.struct._map[name](_value)`) -/
  | enumMember (v : Int)
  /-- a recursively mapped nested structure (`StructMapping(_value)`) -/
  | mapped (fields : List (String × RawVal))
  /-- the raw scalar, unchanged -/
  | raw (v : Int)

/-- The branch cascade of `StructMapping.__getattr__` once the field
exists: `Array` of `c_char` → decoded text; other `Array` → numpy
array; `elif name in self.struct._map` → the enum class is called on
the raw value (`self.struct._map[name](_value)`), which returns the
member whose value equals the raw integer and raises `ValueError` when
no member matches (e.g. `TrigMode(99)`); `elif` nested
`MappableStructure` → a new `StructMapping`; `else` the raw value.

`emap` models `_map` as pairs of a field name and the member values of
its `IntEnum` class.  Calling an `IntEnum` class on a nested structure
value also finds no matching member and raises `ValueError` (no such
`_map` entry exists in `AvaTypes.py`, but the branch order of the
source is kept: the `_map` check precedes the nested-structure check). -/
def mapRaw (emap : List (String × List Int)) (name : String) :
    RawVal → Except PyExcClass MappedVal
  | .charArr bs => .ok (.str (utf8DecodeIgnore bs))
  | .numArr xs => .ok (.arr xs)
  | .structVal fs =>
    match emap.find? (fun e => e.1 = name) with
    | some _ => .error .valueError
    | none => .ok (.mapped fs)
  | .scalar v =>
    match emap.find? (fun e => e.1 = name) with
    | some e => if v ∈ e.2 then .ok (.enumMember v) else .error .valueError
    | none => .ok (.raw v)

/-- Source `StructMapping.__getattr__`: if `name` is among the declared field
names, map its raw value; otherwise
`raise AttributeError(f"… is not a valid field")`. -/
def structGetattr (fields : List (String × RawVal)) (emap : List (String × List Int))
    (name : String) : Except PyExcClass MappedVal :=
  match fields.find? (fun fv => fv.1 = name) with
  | some fv => mapRaw emap name fv.2
  | none => .error .attributeError

/-- The declared field names of `AVSInfoBlock` (`AvaTypes.py`), in
declaration order.  The timestamp field is declared in lowercase:
`("timestamp", c_uint32)`. -/
def avsInfoBlockFieldNames : List String :=
  ["blockLength", "Unused1", "channelIndex", "measurementEnum", "Unused2",
   "ID", "Measurement", "timestamp", "Misc", "aFit", "comment"]

/-- Source `AVSChannel.date` evaluates `_extract_datetime(self.Timestamp)`:
the attribute lookup `self.Timestamp` falls through
`AVSChannel.__getattr__` to `StructMapping.__getattr__` on the
`AVSInfoBlock` header with the name `"Timestamp"` (capital T).  On a
successful lookup of a scalar the decoder would then run; an
`AttributeError` from the lookup propagates. -/
def AVSChannel_date (fields : List (String × RawVal)) (emap : List (String × List Int)) :
    Except PyExcClass (Nat × Nat × Nat × Nat × Nat) :=
  match structGetattr fields emap "Timestamp" with
  | .error e => .error e
  | .ok (.raw (.ofNat ts)) =>
    match extract_datetime ts with
    | some t => .ok t
    | none => .error .valueError
  | .ok _ => .error .valueError

/-- Source `AVSFile.date`: `return self.channels[0].date` — the first
channel's `date` property, any exception propagating. -/
def AVSFile_date (firstChannelFields : List (String × RawVal))
    (emap : List (String × List Int)) : Except PyExcClass (Nat × Nat × Nat × Nat × Nat) :=
  AVSChannel_date firstChannelFields emap

/-! ### `int()` on the version bytes (`reader.py`, `read_file`)

`int(prelude[3:5])` parses the bytes like Python's `int`: ASCII
whitespace is stripped from both ends, an optional single `+`/`-` sign
may precede the digits, and at least one ASCII digit must follow;
anything else raises `ValueError`.  (Underscored digit grouping such as
`b"1_2"` exists in Python but cannot occur in a two-byte slice and is
not modelled.) -/

/-- ASCII whitespace stripped by `int()` on bytes. -/
def isPyWs (b : Nat) : Bool :=
  b == 9 || b == 10 || b == 11 || b == 12 || b == 13 || b == 32

/-- ASCII digit. -/
def isDigitByte (b : Nat) : Bool := 48 ≤ b && b ≤ 57

/-- The value of a non-empty all-digit byte string, `none` otherwise. -/
def digitsVal (bs : List Nat) : Option Nat :=
  if bs ≠ [] ∧ bs.all isDigitByte then
    some (bs.foldl (fun acc b => acc * 10 + (b - 48)) 0)
  else none

/-- Python `int()` applied to a byte string; `none` models
`ValueError`. -/
def pyBytesToInt (bs : List Nat) : Option Int :=
  let t := ((bs.dropWhile isPyWs).reverse.dropWhile isPyWs).reverse
  match t with
  | 43 :: ds => (digitsVal ds).map (fun n => (n : Int))
  | 45 :: ds => (digitsVal ds).map (fun n => -(n : Int))
  | ds => (digitsVal ds).map (fun n => (n : Int))

/-! ### The public entry point (`reader.py`, `read_file`)

`read_file` checks the path, reads the first 5 bytes, decodes
`prelude[:3]` (strict UTF-8), evaluates `int(prelude[3:5]) / 10`, and
dispatches on `file_format.upper()`.  The comparison
`file_version < 8` on the float `int(...) / 10` is equivalent to the
integer comparison `int(...) < 80` (division by 10 is monotone and
`80 / 10 == 8.0` is exact in IEEE double precision).

Python's `str.upper()` is modelled as ASCII uppercasing (code points
`a`–`z` shifted to `A`–`Z`, all others unchanged).  This agrees with
Python on the only comparisons performed — equality with `"AVS"` and
`"STR"` — because no decoding of at most 3 bytes produces a string
whose full Unicode uppercase is one of these pure-ASCII strings without
the bytes being exactly the ASCII letters: the non-ASCII code points
that uppercase into ASCII (`ſ` → `S`, `ı` → `I`, `ß` → `SS`, the
`ﬅ`/`ﬆ` ligatures → `ST`) never yield a 3-character result from a
3-byte input of the required shape. -/

/-- Python `str.upper()` on one code point, restricted as described above. -/
def pyUpperCp (c : Nat) : Nat :=
  if 97 ≤ c ∧ c ≤ 122 then c - 32 else c

/-- The outcome of `read_file` up to parser dispatch: it raises, or
constructs an `AVSFile`, or constructs an `STRFile`. -/
inductive ReadOutcome where
  | raises (c : PyExcClass)
  | dispatchAVS
  | dispatchSTR
  deriving DecidableEq, Repr

/-- Source `reader.py`, `read_file`, modelled on (path exists?, path is a
directory?, file contents as bytes), up to the dispatch into
`AVSFile(file_path)` / `STRFile(file_path)`:

```
if not file_path.exists(): raise FileNotFoundError(...)
elif file_path.is_dir():   raise FileNotFoundError(...)
prelude = fo.read(5)
file_format = prelude[:3].decode()        # may raise UnicodeDecodeError
file_version = int(prelude[3:5]) / 10     # may raise ValueError
if file_format.upper() == "AVS": …
elif file_format.upper() == "STR": …
else: raise AvaReadException(...)
```
-/
def read_file (pathExists isDir : Bool) (content : List Nat) : ReadOutcome :=
  if !pathExists then .raises .fileNotFoundError
  else if isDir then .raises .fileNotFoundError
  else
    let first5 := content.take 5
    match utf8Decode (first5.take 3) with
    | none => .raises .unicodeDecodeError
    | some cps =>
      match pyBytesToInt (first5.drop 3) with
      | none => .raises .valueError
      | some v =>
        let fmt := cps.map pyUpperCp
        if fmt = [65, 86, 83] then           -- "AVS"
          if v < 80 then .raises .avaReadException else .dispatchAVS
        else if fmt = [83, 84, 82] then      -- "STR"
          if v < 80 then .raises .avaReadException else .dispatchSTR
        else .raises .avaReadException

/-! ### The AVS file container (`reader.py`, `AVSFile`)

An `AVSChannel` is modelled by its serial number (`self.ID.SerialNumber`)
and its data block; `AVSFile.__init__` builds
`self.channels = [AVSChannel.from_buffer(fo) for _ in range(self.preamble.channels)]`. -/

/-- A parsed channel: the serial number and the `(pixels, 4)` data. -/
structure PyChannel where
  serial : Nat
  data : List (List Int)
  deriving DecidableEq, Repr

/-- An `AVSFile` after construction: the preamble's channel count and
the parsed channel list. -/
structure AVSFileModel where
  preambleChannels : Nat
  channels : List PyChannel
  deriving DecidableEq, Repr

/-- Source `AVSFile.__init__`, the channel loop: one `AVSChannel.from_buffer`
result per `range(self.preamble.channels)` iteration, the `i`-th parse
producing `chanOf i`. -/
def mkAVSFile (n : Nat) (chanOf : Nat → PyChannel) : AVSFileModel :=
  ⟨n, (List.range n).map chanOf⟩

/-- Source `AVSFile.__len__`: `return self.preamble.channels`. -/
def AVSFile_len (file : AVSFileModel) : Nat :=
  file.preambleChannels

/-- CPython list subscription with an `int` key: a negative key counts
from the end; out of range raises `IndexError`. -/
def pyListGet (l : List α) (k : Int) : Except PyExcClass α :=
  let i := if k < 0 then (l.length : Int) + k else k
  if h : 0 ≤ i ∧ i.toNat < l.length then .ok (l.get ⟨i.toNat, h.2⟩)
  else .error .indexError

/-- Source `AVSFile.__getitem__` on an `int` key:

```
if key >= len(self.channels):
    raise IndexError(...)
return self.channels[key]
```
-/
def AVSFile_getitem_int (file : AVSFileModel) (key : Int) : Except PyExcClass PyChannel :=
  if (file.channels.length : Int) ≤ key then .error .indexError
  else pyListGet file.channels key

/-- Source `AVSFile.__getitem__` on a non-`int` key:

```
keys = [c.ID.SerialNumber for c in self.channels]
if key not in keys:
    raise KeyError(...)
return self.channels[keys.index(key)]
```

`list.index` returns the position of the first match. -/
def AVSFile_getitem_serial (file : AVSFileModel) (key : Nat) : Except PyExcClass PyChannel :=
  if h : key ∈ file.channels.map PyChannel.serial then
    .ok (file.channels.get
      ⟨(file.channels.map PyChannel.serial).indexOf key,
       lt_of_lt_of_le (List.indexOf_lt_length.2 h) (by simp)⟩)
  else .error .keyError

/-! ## Theorems -/

/-- Helper: `daysInMonth` never exceeds 31. -/
theorem daysInMonth_le_31 (y mo : Nat) : daysInMonth y mo ≤ 31 := by
  unfold daysInMonth
  split
  · split <;> omega
  · split <;> omega

/-- C1, counterexample: `STRFile.pixels` does not return
`StopPixel − StartPixel + 1`.  With `StartPixel = 0`, `StopPixel = 3`
it returns `3`, not `4`. -/
theorem STRFile_pixels_missing_plus_one :
    STRFile_pixels 0 3 = 3 ∧ STRFile_pixels 0 3 ≠ (3 : Int) - 0 + 1 := by
  decide

/-- C1, amended: `AVSChannel.__len__` and `AVSChannel.pixels` return
`StopPixel − StartPixel + 1` (the row count of the channel's decoded
data array), while `STRFile.pixels` returns `StopPixel − StartPixel`
(the length of the active-pixel views such as `STRFile.wavelength`). -/
theorem active_pixel_counts (startPixel stopPixel : Nat)
    (wavelengthFull flat : List Int)
    (hss : startPixel ≤ stopPixel) (hlen : stopPixel ≤ wavelengthFull.length) :
    AVSChannel_len startPixel stopPixel = (stopPixel : Int) - startPixel + 1
    ∧ AVSChannel_pixels startPixel stopPixel = (stopPixel : Int) - startPixel + 1
    ∧ ((avsFromBufferData flat (stopPixel - startPixel + 1)).length : Int)
        = AVSChannel_len startPixel stopPixel
    ∧ STRFile_pixels startPixel stopPixel = (stopPixel : Int) - startPixel
    ∧ ((STRFile_wavelength wavelengthFull startPixel stopPixel).length : Int)
        = STRFile_pixels startPixel stopPixel := by
  refine ⟨rfl, rfl, ?_, rfl, ?_⟩
  · simp [avsFromBufferData, AVSChannel_len]
    omega
  · simp [STRFile_wavelength, pySlice, STRFile_pixels]
    omega

/-- C1, witness for `active_pixel_counts` at `StartPixel = 2`,
`StopPixel = 5` over a 6-pixel sensor. -/
theorem active_pixel_counts_witness :
    AVSChannel_len 2 5 = 4 ∧ STRFile_pixels 2 5 = 3 := by
  have h := active_pixel_counts 2 5 (List.replicate 6 0) [] (by decide) (by decide)
  exact ⟨by rw [h.1]; decide, by rw [h.2.2.2.1]; decide⟩

/-- C2: the frame loop reads `sizeof(c_long)` delay bytes, not 4.  On
an LP64 platform (`sizeof(c_long) = 8`, e.g. 64-bit Linux) one frame of
a 2-pixel STR stream consumes 24 bytes, not the `4 + 2*8 = 20` bytes
the claim states; the stated stride only holds where `c_long` is 4
bytes (Windows / 32-bit). -/
theorem strFrameStride_platform_dependent :
    (List.replicate 40 0).length
        - (strReadFramesRest (List.replicate 40 0) 2 sizeof_c_long_lp64 1).length
      = sizeof_c_long_lp64 + 2 * 8
    ∧ sizeof_c_long_lp64 + 2 * 8 ≠ 4 + 2 * 8
    ∧ (List.replicate 40 0).length
        - (strReadFramesRest (List.replicate 40 0) 2 sizeof_c_long_win 1).length
      = 4 + 2 * 8 := by
  decide

/-- C3: on every `AVSChannel` whose header declares the `AVSInfoBlock`
fields, the `date` property fails with `AttributeError`: it looks up
the field name `"Timestamp"`, but `AvaTypes.py` declares the field as
lowercase `"timestamp"`, so `StructMapping.__getattr__` raises.
`AVSFile.date` delegates to the first channel's `date` and fails the
same way. -/
theorem AVSChannel_date_raises (fields : List (String × RawVal))
    (emap : List (String × List Int))
    (h : fields.map Prod.fst = avsInfoBlockFieldNames) :
    AVSChannel_date fields emap = .error .attributeError
    ∧ AVSFile_date fields emap = .error .attributeError
    ∧ "timestamp" ∈ avsInfoBlockFieldNames
    ∧ "Timestamp" ∉ avsInfoBlockFieldNames := by
  have hfind : fields.find? (fun fv => fv.1 = "Timestamp") = none := by
    rw [List.find?_eq_none]
    intro x hx
    have hx1 : x.1 ∈ avsInfoBlockFieldNames := h ▸ List.mem_map_of_mem Prod.fst hx
    simp only [decide_eq_true_eq]
    intro hx2
    rw [hx2] at hx1
    revert hx1
    decide
  have hget : structGetattr fields emap "Timestamp" = .error .attributeError := by
    rw [structGetattr, hfind]
  refine ⟨?_, ?_, by decide, by decide⟩
  · rw [AVSChannel_date, hget]
  · rw [AVSFile_date, AVSChannel_date, hget]

/-- A concrete `AVSInfoBlock` header instance (field values are
arbitrary but well-typed). -/
def avsInfoBlockFieldsExample : List (String × RawVal) :=
  [("blockLength", .scalar 2061), ("Unused1", .numArr [0, 0]),
   ("channelIndex", .scalar 0), ("measurementEnum", .scalar 1),
   ("Unused2", .numArr [0, 0]),
   ("ID", .structVal [("SerialNumber", .charArr [49, 50, 51, 52, 53, 54, 55, 56, 57, 48]),
                      ("UserFriendlyName", .charArr []), ("Status", .scalar 1)]),
   ("Measurement", .structVal [("StartPixel", .scalar 0), ("StopPixel", .scalar 2047)]),
   ("timestamp", .scalar 2123435087),
   ("Misc", .structVal [("file_datetime", .scalar 2123435087)]),
   ("aFit", .numArr [0, 0, 0, 0, 0]), ("comment", .charArr [])]

/-- The `_map` of `AVSInfoBlock`: `measurementEnum` is mapped to
`MeasurementEnum`, whose member values are 0–7. -/
def avsInfoBlockEmap : List (String × List Int) :=
  [("measurementEnum", [0, 1, 2, 3, 4, 5, 6, 7])]

/-- C3, witness: on the concrete header instance the `date` property
raises `AttributeError`. -/
theorem AVSChannel_date_raises_witness :
    AVSChannel_date avsInfoBlockFieldsExample avsInfoBlockEmap
      = .error .attributeError :=
  (AVSChannel_date_raises avsInfoBlockFieldsExample avsInfoBlockEmap rfl).1

/-- C4, counterexample: `(year, month, day, hour, minute) =
(1, 2, 31, 0, 0)` lies within every field range the claim quantifies
over (`year < 4096`, `month 1–12`, `day 1–31`, `hour 0–23`,
`minute 0–59`), yet decoding its packed form does not return the tuple:
`datetime(year=1, month=2, day=31, …)` raises `ValueError` (February
has no day 31), so `_extract_datetime` fails. -/
theorem extract_datetime_feb31_fails :
    extract_datetime (packTimestamp 1 2 31 0 0) ≠ some (1, 2, 31, 0, 0)
    ∧ extract_datetime (packTimestamp 1 2 31 0 0) = none := by
  decide

/-- C4, amended: the round-trip holds for every tuple in the claimed
field ranges that is also a constructible calendar date — `year ≥ 1`
(`datetime.MINYEAR`) and `day` at most the length of that month. -/
theorem extract_datetime_roundtrip (y mo d h mi : Nat)
    (hy1 : 1 ≤ y) (hy : y < 4096) (hmo1 : 1 ≤ mo) (hmo : mo ≤ 12)
    (hd1 : 1 ≤ d) (hd : d ≤ daysInMonth y mo) (hh : h ≤ 23) (hmi : mi ≤ 59) :
    extract_datetime (packTimestamp y mo d h mi) = some (y, mo, d, h, mi) := by
  have hd31 : d ≤ 31 := le_trans hd (daysInMonth_le_31 y mo)
  have hpow20 : (2 : Nat) ^ 20 = 1048576 := by norm_num
  have hpow16 : (2 : Nat) ^ 16 = 65536 := by norm_num
  have hpow11 : (2 : Nat) ^ 11 = 2048 := by norm_num
  have hpow6 : (2 : Nat) ^ 6 = 64 := by norm_num
  have e1 : packTimestamp y mo d h mi >>> 20 = y := by
    rw [Nat.shiftRight_eq_div_pow, hpow20, packTimestamp]; omega
  have e2 : (packTimestamp y mo d h mi >>> 16) % 16 = mo := by
    rw [Nat.shiftRight_eq_div_pow, hpow16, packTimestamp]; omega
  have e3 : (packTimestamp y mo d h mi >>> 11) % 32 = d := by
    rw [Nat.shiftRight_eq_div_pow, hpow11, packTimestamp]; omega
  have e4 : (packTimestamp y mo d h mi >>> 6) % 32 = h := by
    rw [Nat.shiftRight_eq_div_pow, hpow6, packTimestamp]; omega
  have e5 : packTimestamp y mo d h mi % 64 = mi := by
    rw [packTimestamp]; omega
  rw [extract_datetime]
  simp only [e1, e2, e3, e4, e5]
  rw [if_pos ⟨hy1, by omega, hmo1, hmo, hd1, hd, hh, hmi⟩]

/-- C4, witness for `extract_datetime_roundtrip` at the leap-day tuple
`(2024, 2, 29, 12, 30)`. -/
theorem extract_datetime_roundtrip_witness :
    extract_datetime (packTimestamp 2024 2 29 12 30) = some (2024, 2, 29, 12, 30) :=
  extract_datetime_roundtrip 2024 2 29 12 30 (by decide) (by decide) (by decide)
    (by decide) (by decide) (by decide) (by decide) (by decide)

/-- C5, counterexample: a file whose 5 bytes are `"XYZab"` has magic
bytes other than case-insensitive `"AVS"`/`"STR"`, yet `read_file`
fails with a generic `ValueError` — `int(prelude[3:5])` is evaluated on
`b"ab"` before the format tag is examined — and not with the
`AvaReadException` format error the claim requires. -/
theorem read_file_badmagic_generic_error :
    [88, 89, 90].map pyUpperCp ≠ [65, 86, 83]
    ∧ [88, 89, 90].map pyUpperCp ≠ [83, 84, 82]
    ∧ read_file true false [88, 89, 90, 97, 98] = .raises .valueError
    ∧ ReadOutcome.raises .valueError ≠ .raises .avaReadException := by
  decide

/-- C5, amended: a missing path or a directory path fails with
`FileNotFoundError`; when the magic bytes decode and the version bytes
parse as an integer, magic other than case-insensitive `"AVS"`/`"STR"`
fails with the `AvaReadException` format error, a recognized tag with
version below 8 (integer value below 80) fails with the format error,
and otherwise `read_file` dispatches to the AVS or STR parser; but
undecodable magic bytes fail with `UnicodeDecodeError` and non-integer
version bytes with `ValueError` — both before the tag is examined. -/
theorem read_file_dispatch_behavior (pathExists isDir : Bool) (content : List Nat) :
    (pathExists = false → read_file pathExists isDir content = .raises .fileNotFoundError)
    ∧ (isDir = true → read_file pathExists isDir content = .raises .fileNotFoundError)
    ∧ (pathExists = true → isDir = false →
        utf8Decode ((content.take 5).take 3) = none →
        read_file pathExists isDir content = .raises .unicodeDecodeError)
    ∧ (∀ cps, pathExists = true → isDir = false →
        utf8Decode ((content.take 5).take 3) = some cps →
        pyBytesToInt ((content.take 5).drop 3) = none →
        read_file pathExists isDir content = .raises .valueError)
    ∧ (∀ cps v, pathExists = true → isDir = false →
        utf8Decode ((content.take 5).take 3) = some cps →
        pyBytesToInt ((content.take 5).drop 3) = some v →
        cps.map pyUpperCp ≠ [65, 86, 83] → cps.map pyUpperCp ≠ [83, 84, 82] →
        read_file pathExists isDir content = .raises .avaReadException)
    ∧ (∀ cps v, pathExists = true → isDir = false →
        utf8Decode ((content.take 5).take 3) = some cps →
        pyBytesToInt ((content.take 5).drop 3) = some v →
        cps.map pyUpperCp = [65, 86, 83] → v < 80 →
        read_file pathExists isDir content = .raises .avaReadException)
    ∧ (∀ cps v, pathExists = true → isDir = false →
        utf8Decode ((content.take 5).take 3) = some cps →
        pyBytesToInt ((content.take 5).drop 3) = some v →
        cps.map pyUpperCp = [65, 86, 83] → 80 ≤ v →
        read_file pathExists isDir content = .dispatchAVS)
    ∧ (∀ cps v, pathExists = true → isDir = false →
        utf8Decode ((content.take 5).take 3) = some cps →
        pyBytesToInt ((content.take 5).drop 3) = some v →
        cps.map pyUpperCp = [83, 84, 82] → v < 80 →
        read_file pathExists isDir content = .raises .avaReadException)
    ∧ (∀ cps v, pathExists = true → isDir = false →
        utf8Decode ((content.take 5).take 3) = some cps →
        pyBytesToInt ((content.take 5).drop 3) = some v →
        cps.map pyUpperCp = [83, 84, 82] → 80 ≤ v →
        read_file pathExists isDir content = .dispatchSTR) := by
  refine ⟨?_, ?_, ?_, ?_, ?_, ?_, ?_, ?_, ?_⟩
  · intro h; subst h; rw [read_file]; rfl
  · intro h; subst h; cases pathExists <;> rw [read_file] <;> rfl
  · intro h1 h2 hdec; subst h1; subst h2
    rw [read_file]; simp only [Bool.not_true, Bool.false_eq_true, if_false, hdec]
  · intro cps h1 h2 hdec hint; subst h1; subst h2
    rw [read_file]; simp only [Bool.not_true, Bool.false_eq_true, if_false, hdec, hint]
  · intro cps v h1 h2 hdec hint hne1 hne2; subst h1; subst h2
    rw [read_file]
    simp only [Bool.not_true, Bool.false_eq_true, if_false, hdec, hint]
    rw [if_neg hne1, if_neg hne2]
  · intro cps v h1 h2 hdec hint heq hv; subst h1; subst h2
    rw [read_file]
    simp only [Bool.not_true, Bool.false_eq_true, if_false, hdec, hint]
    rw [if_pos heq, if_pos hv]
  · intro cps v h1 h2 hdec hint heq hv; subst h1; subst h2
    rw [read_file]
    simp only [Bool.not_true, Bool.false_eq_true, if_false, hdec, hint]
    rw [if_pos heq, if_neg (by omega)]
  · intro cps v h1 h2 hdec hint heq hv; subst h1; subst h2
    rw [read_file]
    simp only [Bool.not_true, Bool.false_eq_true, if_false, hdec, hint]
    have hne : cps.map pyUpperCp ≠ [65, 86, 83] := by rw [heq]; decide
    rw [if_neg hne, if_pos heq, if_pos hv]
  · intro cps v h1 h2 hdec hint heq hv; subst h1; subst h2
    rw [read_file]
    simp only [Bool.not_true, Bool.false_eq_true, if_false, hdec, hint]
    have hne : cps.map pyUpperCp ≠ [65, 86, 83] := by rw [heq]; decide
    rw [if_neg hne, if_pos heq, if_neg (by omega)]

/-- C5, witness for `read_file_dispatch_behavior`: the file `"avs79"`
(lower-case tag, version 7.9 < 8) fails with the format error. -/
theorem read_file_dispatch_behavior_witness :
    read_file true false [97, 118, 115, 55, 57] = .raises .avaReadException :=
  (read_file_dispatch_behavior true false [97, 118, 115, 55, 57]).2.2.2.2.2.1
    [97, 118, 115] 79 rfl rfl (by decide) (by decide) (by decide) (by decide)

/-- C6: the elementwise claim fails on `STRFile.signal`.  On a 2-pixel,
2-frame STR file with raw data `[[10,20],[30,40]]` and dark `[1,2]`,
numpy broadcasting of `(2,2) - (2,)` subtracts the dark array along the
frame axis, giving `[[9,18],[29,38]]` instead of the elementwise
`[[9,19],[28,38]]`; with 3 frames the shapes `(2,3)` and `(2,)` do not
broadcast at all and the access raises `ValueError`.  Per-frame indexed
access (`STRFile.__getitem__`) and `AVSChannel.signal` are elementwise
as claimed. -/
theorem STRFile_signal_broadcast_bug :
    STRFile_signal [[10, 20], [30, 40]] [1, 2] 0 2 = some [[9, 18], [29, 38]]
    ∧ strSignalElementwise [[10, 20], [30, 40]] [1, 2] 0 2 = [[9, 19], [28, 38]]
    ∧ STRFile_signal [[10, 20], [30, 40]] [1, 2] 0 2
        ≠ some (strSignalElementwise [[10, 20], [30, 40]] [1, 2] 0 2)
    ∧ STRFile_signal [[1, 2, 3], [4, 5, 6]] [1, 2] 0 2 = none
    ∧ STRFile_getitem [[10, 20], [30, 40]] [1, 2] 0 2 0 = [9, 28]
    ∧ STRFile_getitem [[10, 20], [30, 40]] [1, 2] 0 2 1 = [19, 38]
    ∧ AVSChannel_signal [[400, 10, 1, 0], [401, 20, 1, 0], [402, 30, 1, 0], [403, 40, 1, 0]]
        = [9, 19, 29, 39] := by
  decide

/-- Helper: CPython list subscription at an in-range non-negative
index returns the element at that position. -/
theorem pyListGet_coe (l : List α) (i : Nat) (h : i < l.length) :
    pyListGet l (i : Int) = .ok (l.get ⟨i, h⟩) := by
  have h0 : ¬ ((i : Int) < 0) := by omega
  simp [pyListGet, h0, Int.toNat_natCast, h]

/-- C7: for a regular file constructed from a preamble declaring `C`
channels, `len(file) = C`, positional access at every `i < C` returns
the `i`-th parsed channel, and positional access at `i = C` raises
`IndexError`. -/
theorem AVSFile_len_and_positional_access (n : Nat) (chanOf : Nat → PyChannel)
    (i : Nat) (hi : i < n) :
    AVSFile_len (mkAVSFile n chanOf) = n
    ∧ AVSFile_getitem_int (mkAVSFile n chanOf) (i : Int) = .ok (chanOf i)
    ∧ AVSFile_getitem_int (mkAVSFile n chanOf) (n : Int) = .error .indexError := by
  have hlen : ((List.range n).map chanOf).length = n := by simp
  refine ⟨rfl, ?_, ?_⟩
  · rw [AVSFile_getitem_int]
    rw [if_neg (by simp only [mkAVSFile, hlen]; exact_mod_cast not_le.2 hi)]
    have hi' : i < ((List.range n).map chanOf).length := by omega
    rw [show (mkAVSFile n chanOf).channels = (List.range n).map chanOf from rfl]
    rw [pyListGet_coe _ i hi']
    simp [List.getElem_map]
  · rw [AVSFile_getitem_int]
    rw [if_pos (by simp [mkAVSFile])]

/-- C7, witness for `AVSFile_len_and_positional_access` on a 2-channel
file. -/
theorem AVSFile_len_and_positional_access_witness :
    AVSFile_len (mkAVSFile 2 fun j => ⟨100 + j, []⟩) = 2
    ∧ AVSFile_getitem_int (mkAVSFile 2 fun j => ⟨100 + j, []⟩) 1 = .ok ⟨101, []⟩
    ∧ AVSFile_getitem_int (mkAVSFile 2 fun j => ⟨100 + j, []⟩) 2 = .error .indexError :=
  AVSFile_len_and_positional_access 2 (fun j => ⟨100 + j, []⟩) 1 (by decide)

/-- C8: when the serial numbers in a file are unique, looking a channel
up by its own serial number returns the channel at its own position
(`keys.index` takes the first match, so with duplicates the first
matching channel is returned). -/
theorem AVSFile_serial_lookup (file : AVSFileModel)
    (h : (file.channels.map PyChannel.serial).Nodup)
    (p : Nat) (hp : p < file.channels.length) :
    AVSFile_getitem_serial file ((file.channels.get ⟨p, hp⟩).serial)
      = .ok (file.channels.get ⟨p, hp⟩) := by
  have hplen : p < (file.channels.map PyChannel.serial).length := by simpa using hp
  have hmem : (file.channels.get ⟨p, hp⟩).serial ∈ file.channels.map PyChannel.serial :=
    List.mem_map.2 ⟨file.channels.get ⟨p, hp⟩, List.get_mem _ _ _, rfl⟩
  rw [AVSFile_getitem_serial, dif_pos hmem]
  have hidxlt : (file.channels.map PyChannel.serial).indexOf
      (file.channels.get ⟨p, hp⟩).serial < (file.channels.map PyChannel.serial).length :=
    List.indexOf_lt_length.2 hmem
  have hgetidx : (file.channels.map PyChannel.serial).get
      ⟨(file.channels.map PyChannel.serial).indexOf (file.channels.get ⟨p, hp⟩).serial,
        hidxlt⟩ = (file.channels.get ⟨p, hp⟩).serial :=
    List.indexOf_get hidxlt
  have hgetp : (file.channels.map PyChannel.serial).get ⟨p, hplen⟩
      = (file.channels.get ⟨p, hp⟩).serial := by
    simp [List.getElem_map]
  have hidx : (file.channels.map PyChannel.serial).indexOf
      (file.channels.get ⟨p, hp⟩).serial = p := by
    have := (h.get_inj_iff (i := ⟨_, hidxlt⟩) (j := ⟨p, hplen⟩)).1
      (by rw [hgetidx, hgetp])
    exact congrArg Fin.val this
  congr 1
  simp only [hidx]

/-- C8, witness for `AVSFile_serial_lookup` on a 2-channel file with
distinct serials. -/
theorem AVSFile_serial_lookup_witness :
    AVSFile_getitem_serial ⟨2, [⟨17, []⟩, ⟨42, []⟩]⟩ 42 = .ok ⟨42, []⟩ := by
  have h := AVSFile_serial_lookup ⟨2, [⟨17, []⟩, ⟨42, []⟩]⟩ (by decide) 1 (by decide)
  exact h

/-- Helper: mapping the raw value of an existing field either produces
a mapped value or raises the enum-constructor `ValueError`
(`self.struct._map[name](_value)` with a raw value outside the member
set) — never the no-such-field `AttributeError`. -/
theorem mapRaw_ok_or_valueError (emap : List (String × List Int)) (name : String)
    (v : RawVal) :
    (∃ w, mapRaw emap name v = .ok w) ∨ mapRaw emap name v = .error .valueError := by
  cases v with
  | charArr bs => exact .inl ⟨_, rfl⟩
  | numArr xs => exact .inl ⟨_, rfl⟩
  | structVal fs =>
    cases hf : emap.find? (fun e => e.1 = name) with
    | some e => right; simp [mapRaw, hf]
    | none => left; exact ⟨.mapped fs, by simp [mapRaw, hf]⟩
  | scalar n =>
    cases hf : emap.find? (fun e => e.1 = name) with
    | some e =>
      by_cases hv : n ∈ e.2
      · left; exact ⟨.enumMember n, by simp [mapRaw, hf, hv]⟩
      · right; simp [mapRaw, hf, hv]
    | none => left; exact ⟨.raw n, by simp [mapRaw, hf]⟩

/-- C9: dotted-path access on a mapped record for a name not among the
declared fields fails with `AttributeError`, and the failure is local
to that access: each access is an independent pure lookup on the
underlying structure, so every declared field of the same object is
afterwards exactly as accessible as before — its access never raises
the no-such-field `AttributeError`; it yields the field's mapped value,
or (for an enum-mapped field whose raw value lies outside the enum's
member set) its own independent enum-constructor `ValueError`. -/
theorem structMapping_unknown_field (fields : List (String × RawVal))
    (emap : List (String × List Int)) (name : String)
    (h : name ∉ fields.map Prod.fst) :
    structGetattr fields emap name = .error .attributeError
    ∧ (∀ n ∈ fields.map Prod.fst,
        structGetattr fields emap n ≠ .error .attributeError)
    ∧ (∀ n ∈ fields.map Prod.fst,
        (∃ v, structGetattr fields emap n = .ok v)
        ∨ structGetattr fields emap n = .error .valueError) := by
  have hdecl : ∀ n ∈ fields.map Prod.fst,
      (∃ v, structGetattr fields emap n = .ok v)
      ∨ structGetattr fields emap n = .error .valueError := by
    intro n hn
    obtain ⟨x, hx, hx1⟩ := List.mem_map.1 hn
    have hsome : (fields.find? (fun fv => fv.1 = n)).isSome :=
      List.find?_isSome.2 ⟨x, hx, by simp [hx1]⟩
    obtain ⟨fv, hfv⟩ := Option.isSome_iff_exists.1 hsome
    have hget : structGetattr fields emap n = mapRaw emap n fv.2 := by
      rw [structGetattr, hfv]
    rw [hget]
    exact mapRaw_ok_or_valueError emap n fv.2
  refine ⟨?_, ?_, hdecl⟩
  · have hfind : fields.find? (fun fv => fv.1 = name) = none := by
      rw [List.find?_eq_none]
      intro x hx
      simp only [decide_eq_true_eq]
      intro hx1
      exact h (hx1 ▸ List.mem_map_of_mem Prod.fst hx)
    rw [structGetattr, hfind]
  · intro n hn
    rcases hdecl n hn with ⟨v, hv⟩ | hv <;> rw [hv] <;> simp

/-- The `TriggerStruct` fields of `AvaTypes.py` with their `_map`
entries, as a concrete mapped record. -/
def triggerStructFieldsExample : List (String × RawVal) :=
  [("Mode", .scalar 0), ("Source", .scalar 2), ("SourceType", .scalar 0)]

/-- The `_map` of `TriggerStruct`: `Mode → TrigMode` (members 0, 1),
`Source → TrigSource` (members 2, 0, 1), `SourceType → TrigKind`
(members 0, 1). -/
def triggerStructEmap : List (String × List Int) :=
  [("Mode", [0, 1]), ("Source", [2, 0, 1]), ("SourceType", [0, 1])]

/-- C9, witness: accessing the undeclared name `"mode"` (the declared
field is `"Mode"`) on a mapped `TriggerStruct` raises `AttributeError`,
while the declared `"Source"` field is unaffected by that failure. -/
theorem structMapping_unknown_field_witness :
    structGetattr triggerStructFieldsExample triggerStructEmap "mode"
        = .error .attributeError
    ∧ structGetattr triggerStructFieldsExample triggerStructEmap "Source"
        ≠ .error .attributeError
    ∧ ((∃ v, structGetattr triggerStructFieldsExample triggerStructEmap "Source" = .ok v)
        ∨ structGetattr triggerStructFieldsExample triggerStructEmap "Source"
            = .error .valueError) := by
  have h := structMapping_unknown_field triggerStructFieldsExample
    triggerStructEmap "mode" (by decide)
  exact ⟨h.1, h.2.1 "Source" (by decide), h.2.2 "Source" (by decide)⟩

/-- C10: `AvaReadException` is declared with base `BaseException`
(`reader.py` line 19), so it is not a subclass of `Exception`: a
handler catching only `Exception` does not catch it, while a
`BaseException` handler does.  Both the magic-byte failure (`"XYZ80"`)
and the too-old-version failure (`"avs79"`) raise this class. -/
theorem avaReadException_escapes_generic_handler :
    PyExcClass.ancestors .avaReadException = [.avaReadException, .baseException]
    ∧ pyCatches .exceptionCls .avaReadException = false
    ∧ pyCatches .baseException .avaReadException = true
    ∧ read_file true false [88, 89, 90, 56, 48] = .raises .avaReadException
    ∧ read_file true false [97, 118, 115, 55, 57] = .raises .avaReadException := by
  decide

end Avaread
